import Mathlib

/-!
Shallow embedding of the request-context composition and authorization-resolution
pipeline of the repository (packages/graphql/src/schema/resolvers/wrapper.ts) and
of the schema-model Operation registry, together with theorems settling the
frozen behavioural claims about them.

Modelling conventions:
- TypeScript exceptions are modelled with `Except JsError`; a thrown error is
  `Except.error`, a normal return is `Except.ok`.
- JavaScript `undefined` / optional fields are modelled with `Option`.
- JS truthiness: an object is truthy iff present (`Option.isSome`); a string is
  truthy iff present and nonempty.
- The two async collaborators that perform I/O (the JWT decoder and the database
  version query) are modelled as explicit function parameters; "the collaborator
  is never invoked" is expressed as the run being equal for any two collaborator
  functions.
- The invocation of the opaque `next` resolver step is modelled by returning the
  arguments it would receive; an `Except.error` result means `next` was never
  invoked.
-/

/-- An opaque Neo4j driver instance (collaborator object, contents irrelevant). -/
structure Driver where
  id : Nat
deriving DecidableEq, Repr

/-- An opaque deprecated `Node` schema object. -/
structure Node where
  id : Nat
deriving DecidableEq, Repr

/-- An opaque deprecated `Relationship` schema object. -/
structure Relationship where
  id : Nat
deriving DecidableEq, Repr

/-- An opaque `Neo4jGraphQLSchemaModel` (read-only collaborator). -/
structure SchemaModel where
  id : Nat
deriving DecidableEq, Repr

/-- An opaque subscriptions mechanism/engine carried in `features.subscriptions`. -/
structure SubscriptionsEngine where
  id : Nat
deriving DecidableEq, Repr

/-- Modelled from the spec: the `Neo4jVersion` value held by `Neo4jDatabaseInfo`
(the class lives in `classes/Neo4jDatabaseInfo`, outside these sources). It is a
structured object, hence always JS-truthy when present. -/
structure Neo4jVersion where
  major : Nat
  minor : Nat
deriving DecidableEq, Repr

/-- Modelled from the spec: `Neo4jDatabaseInfo` — version/edition metadata of the
connected database. Every instance carries a version object, so the source's
`neo4jDatabaseInfo?.version` truthiness test reduces to "is the cache populated". -/
structure Neo4jDatabaseInfo where
  version : Neo4jVersion
  edition : Option String := none
deriving DecidableEq, Repr

/-- `context.executionContext`: a driver, session or transaction handle. -/
inductive ExecutionContext
  | driver (d : Driver)
  | session (id : Nat)
  | transaction (id : Nat)
deriving DecidableEq, Repr

/-- `ContextFeatures` restricted to the single field this pipeline reads:
`features.subscriptions` (absent means subscriptions are disabled). -/
structure ContextFeatures where
  subscriptions : Option SubscriptionsEngine := none
deriving DecidableEq, Repr

/-- A decoded JWT claims mapping (claim name to claim value). `[]` is the empty
object `\x7b\x7d`. -/
abbrev Claims := List (String × String)

/-- `Cypher.NamedParam`: a value wrapped as a named, referenceable parameter. -/
structure NamedParam (α : Type) where
  name : String
  value : α
deriving DecidableEq, Repr

/-- The `AuthorizationContext` produced by `getAuthorizationContext`.
`jwtParam.value = none` models wrapping JS `undefined`; `some []` models wrapping
the empty object. -/
structure AuthorizationContext where
  isAuthenticated : Bool
  jwt : Option Claims := none
  jwtParam : NamedParam (Option Claims)
  isAuthenticatedParam : NamedParam Bool
  claims : Option (List (String × String)) := none
deriving DecidableEq, Repr

/-- Thrown JavaScript errors distinguished by constructor. -/
inductive JsError
  | error (message : String)
  | neo4jError (message : String) (code : String)
  | schemaValidation (message : String)
  | custom (message : String)
deriving DecidableEq, Repr

/-- The `Executor` constructed once per request (wrapper.ts lines 111-115). -/
structure Executor where
  executionContext : Option ExecutionContext := none
  cypherQueryOptions : Option Nat := none
  sessionConfig : Option Nat := none
deriving DecidableEq, Repr

/-- A value stored in a string-keyed JS object field. The typed variants cover
the internally derived fields of the composed context; `strV`/`natV` stand for
arbitrary further caller-supplied values. -/
inductive CtxValue
  | execCtxV (e : ExecutionContext)
  | claimsV (c : Claims)
  | optsV (n : Nat)
  | nodesV (ns : List Node)
  | relsV (rs : List Relationship)
  | schemaModelV (m : SchemaModel)
  | featuresV (f : ContextFeatures)
  | boolV (b : Bool)
  | executorV (e : Executor)
  | dbInfoV (i : Neo4jDatabaseInfo)
  | authV (a : AuthorizationContext)
  | strV (s : String)
  | natV (n : Nat)
deriving DecidableEq, Repr

/-- A JS object viewed as an ordered list of field assignments; a later
assignment to the same key shadows an earlier one. -/
abbrev CtxObj := List (String × CtxValue)

/-- Field lookup on a JS object: the value of the last assignment to the key. -/
def lookupLast : CtxObj → String → Option CtxValue
  | [], _ => none
  | (k1, v) :: rest, k =>
    match lookupLast rest k with
    | some w => some w
    | none => if k1 == k then some v else none

/-- JS object spread: in an object literal, the fields of `b` are written after
(and therefore shadow) the fields of `a`. -/
def spreadObj (a b : CtxObj) : CtxObj := a ++ b

/-- The caller-supplied per-request context (`Neo4jGraphQLContext`), restricted
to the fields the wrapper reads or writes, plus `extra`: arbitrary further
caller-supplied fields, relevant to the merge-precedence behaviour. -/
structure Neo4jGraphQLContext where
  executionContext : Option ExecutionContext := none
  cypherQueryOptions : Option Nat := none
  sessionConfig : Option Nat := none
  jwt : Option Claims := none
  extra : CtxObj := []
deriving DecidableEq, Repr

/-- The caller-supplied context viewed as a JS object (present fields only). -/
def Neo4jGraphQLContext.toObj (c : Neo4jGraphQLContext) : CtxObj :=
  (match c.executionContext with
   | some e => [("executionContext", CtxValue.execCtxV e)]
   | none => [])
  ++ (match c.cypherQueryOptions with
      | some n => [("cypherQueryOptions", CtxValue.optsV n)]
      | none => [])
  ++ (match c.sessionConfig with
      | some n => [("sessionConfig", CtxValue.optsV n)]
      | none => [])
  ++ (match c.jwt with
      | some j => [("jwt", CtxValue.claimsV j)]
      | none => [])
  ++ c.extra

/-- Modelled from the spec: the decoder capability `Neo4jGraphQLAuthorization`
(the class lives in `classes/authorization`, outside these sources). `decode`
resolves claims from the per-request context; `decodeBearerTokenWithVerify`
verifies an out-of-band bearer token; `globalAuthentication` is the mandatory
global-authentication configuration flag. A decode failure is `Except.error`. -/
structure Neo4jGraphQLAuthorization where
  globalAuthentication : Bool := false
  decode : Neo4jGraphQLContext → Except JsError Claims
  decodeBearerTokenWithVerify : Option String → Except JsError Claims

/-- `WrapResolverArguments` (wrapper.ts lines 39-48). -/
structure WrapResolverArguments where
  driver : Option Driver := none
  nodes : List Node := []
  relationships : List Relationship := []
  jwtPayloadFieldsMap : Option (List (String × String)) := none
  schemaModel : SchemaModel
  dbInfo : Option Neo4jDatabaseInfo := none
  features : ContextFeatures := {}
  authorization : Option Neo4jGraphQLAuthorization := none

/-- `getAuthorizationContext` (wrapper.ts lines 183-220). The source's try/catch
around `authorization.decode` is modelled by matching on the decoder's `Except`
result: a decode failure is converted into an unauthenticated verdict and never
re-thrown, so the function returns a plain value. The second component is the
caller's context object, which the success branch mutates in place
(`context.jwt = await authorization.decode(context)`). The final wildcard arm is
the source's single fall-through return (lines 211-219), reached both when the
context already carries claims and when no decoder is configured. -/
def getAuthorizationContext (context : Neo4jGraphQLContext)
    (authorization : Option Neo4jGraphQLAuthorization)
    (jwtPayloadFieldsMap : Option (List (String × String))) :
    AuthorizationContext × Neo4jGraphQLContext :=
  match context.jwt, authorization with
  | none, some auth =>
    (match auth.decode context with
     | .ok decoded =>
       let context := { context with jwt := some decoded }
       ({ isAuthenticated := true
          jwt := context.jwt
          jwtParam := { name := "jwt", value := context.jwt }
          isAuthenticatedParam := { name := "isAuthenticated", value := true }
          claims := jwtPayloadFieldsMap }, context)
     | .error _ =>
       ({ isAuthenticated := false
          jwtParam := { name := "jwt", value := some [] }
          isAuthenticatedParam := { name := "isAuthenticated", value := false } }, context))
  | _, _ =>
    ({ isAuthenticated := true
       jwt := context.jwt
       jwtParam := { name := "jwt", value := context.jwt }
       isAuthenticatedParam := { name := "isAuthenticated", value := true } }, context)

/-- The internally derived fields of the composed context, written first in the
`internalContext` object literal (wrapper.ts lines 124-132). -/
structure InternalContext where
  nodes : List Node
  relationships : List Relationship
  schemaModel : SchemaModel
  features : ContextFeatures
  subscriptionsEnabled : Bool
  executor : Executor
  neo4jDatabaseInfo : Neo4jDatabaseInfo
  authorization : AuthorizationContext
deriving DecidableEq, Repr

/-- The internally derived fields as the JS object-literal assignments of
wrapper.ts lines 124-132, in source order. -/
def internalObj (ic : InternalContext) : CtxObj :=
  [("nodes", CtxValue.nodesV ic.nodes),
   ("relationships", CtxValue.relsV ic.relationships),
   ("schemaModel", CtxValue.schemaModelV ic.schemaModel),
   ("features", CtxValue.featuresV ic.features),
   ("subscriptionsEnabled", CtxValue.boolV ic.subscriptionsEnabled),
   ("executor", CtxValue.executorV ic.executor),
   ("neo4jDatabaseInfo", CtxValue.dbInfoV ic.neo4jDatabaseInfo),
   ("authorization", CtxValue.authV ic.authorization)]

/-- The configuration error message of wrapper.ts lines 97-99. -/
def driverMissingMessage : String :=
  "A Neo4j driver instance must either be passed to Neo4jGraphQL on construction, or a driver, session or transaction passed as context.executionContext in each request."

/-- Lines 95-102 of wrapper.ts: reuse the execution handle already named by the
context, otherwise fall back to the driver configured at construction, and throw
a configuration error when neither exists. -/
def provisionExecutionContext (driver : Option Driver)
    (context : Neo4jGraphQLContext) : Except JsError Neo4jGraphQLContext :=
  if context.executionContext.isSome then .ok context
  else
    match driver with
    | none => .error (.error driverMissingMessage)
    | some d => .ok { context with executionContext := some (.driver d) }

/-- What one run of the wrapped resolver produced before handing off to `next`:
the caller context as mutated in place, the internally derived fields, the
composed object actually passed to `next` (line 137), and the new value of the
module-level version cache. -/
structure WrapResolverOutcome where
  ctxAfter : Neo4jGraphQLContext
  internal : InternalContext
  composed : CtxObj
  cacheAfter : Option Neo4jDatabaseInfo
deriving DecidableEq, Repr

/-- `wrapResolver` (wrapper.ts lines 73-138) as a function of the construction
arguments, the incoming request context, the current value of the module-level
`neo4jDatabaseInfo` cache (line 71), and the `getNeo4jDatabaseInfo` version
query modelled as the function parameter `fetchDbInfo`. An `Except.error`
result is a thrown error: `next` is never invoked and no outcome exists. -/
def wrapResolver (args : WrapResolverArguments) (context : Neo4jGraphQLContext)
    (cache : Option Neo4jDatabaseInfo)
    (fetchDbInfo : Executor → Neo4jDatabaseInfo) :
    Except JsError WrapResolverOutcome :=
  match provisionExecutionContext args.driver context with
  | .error e => .error e
  | .ok context =>
    let subscriptionsEnabled := args.features.subscriptions.isSome
    let resolved := getAuthorizationContext context args.authorization args.jwtPayloadFieldsMap
    let authorizationContext := resolved.1
    let context := resolved.2
    let context :=
      if context.jwt.isSome then context
      else { context with jwt := authorizationContext.jwt }
    let executor : Executor :=
      { executionContext := context.executionContext
        cypherQueryOptions := context.cypherQueryOptions
        sessionConfig := context.sessionConfig }
    let cache := if args.dbInfo.isSome then args.dbInfo else cache
    let neo4jDatabaseInfo :=
      match cache with
      | some info => info
      | none => fetchDbInfo executor
    let internalContext : InternalContext :=
      { nodes := args.nodes
        relationships := args.relationships
        schemaModel := args.schemaModel
        features := args.features
        subscriptionsEnabled := subscriptionsEnabled
        executor := executor
        neo4jDatabaseInfo := neo4jDatabaseInfo
        authorization := authorizationContext }
    .ok { ctxAfter := context
          internal := internalContext
          composed := spreadObj context.toObj
            (spreadObj (internalObj internalContext) context.toObj)
          cacheAfter := some neo4jDatabaseInfo }

/-- The connection parameters of a subscription connection, restricted to the
field the wrapper reads (`authorization`: the bearer token). -/
structure ConnectionParams where
  authorization : Option String := none
deriving DecidableEq, Repr

/-- The `SubscriptionConnectionContext` carried by a long-lived connection. -/
structure SubscriptionConnectionContext where
  connectionParams : Option ConnectionParams := none
  jwt : Option Claims := none
deriving DecidableEq, Repr

/-- The `SubscriptionContext` object built by `wrapSubscription`
(wrapper.ts lines 153-156, then enriched on lines 158-175). -/
structure SubscriptionContext where
  plugin : SubscriptionsEngine
  schemaModel : SchemaModel
  jwt : Option Claims := none
  jwtPayloadFieldsMap : Option (List (String × String)) := none
deriving DecidableEq, Repr

/-- The context argument `wrapSubscription` hands to `next`: either the original
connection context passed through untouched (line 150), or the composed object
of line 180, recorded as its three spread components in spread order. -/
inductive SubNextArg
  | passthrough (context : Option SubscriptionConnectionContext)
  | composed (context : Option SubscriptionConnectionContext)
      (params : ConnectionParams) (sub : SubscriptionContext)
deriving DecidableEq, Repr

/-- The `jwt` field visible on the object handed to `next`. In the composed
object the `subscriptionContext` spread comes last; on every reachable composed
result its `jwt` own-property is set exactly when the connection carried or
decoded claims, so it is the visible value. -/
def SubNextArg.visibleJwt : SubNextArg → Option Claims
  | .passthrough context => context.bind (fun c => c.jwt)
  | .composed _ _ sub => sub.jwt

/-- The top-level `authorization` field visible on the object handed to `next`:
present only when the connection parameters were spread into the composed
object (a `SubscriptionConnectionContext` itself has no such field, and the
`subscriptionContext` object never assigns one). -/
def SubNextArg.topAuthorization : SubNextArg → Option String
  | .passthrough _ => none
  | .composed _ params _ => params.authorization

/-- Modelled from the spec: the `AUTH_FORBIDDEN_ERROR` Neo4jError code imported
from `constants` (outside these sources); an opaque error-code string. -/
def AUTH_FORBIDDEN_ERROR : String := "AUTH_FORBIDDEN_ERROR"

/-- Line 146 of wrapper.ts: `context?.connectionParams || \x7b\x7d`. -/
def subscriptionConnectionParams
    (context : Option SubscriptionConnectionContext) : ConnectionParams :=
  match context.bind (fun c => c.connectionParams) with
  | some p => p
  | none => {}

/-- JS truthiness of an optional string: present and nonempty. -/
def truthyStr : Option String → Bool
  | none => false
  | some s => !(s == "")

/-- `wrapSubscription` (wrapper.ts lines 140-181). An `Except.error` result is a
thrown error (`next` never invoked); an `Except.ok` result records the context
argument `next` receives. The bearer-token decoder
`decodeBearerTokenWithVerify` lives inside `resolverArgs.authorization`; runs
that never consult it are equal for any two decoder functions. -/
def wrapSubscription (resolverArgs : WrapResolverArguments)
    (context : Option SubscriptionConnectionContext) :
    Except JsError SubNextArg :=
  let subscriptionsConfig := resolverArgs.features.subscriptions
  let schemaModel := resolverArgs.schemaModel
  let contextParams := subscriptionConnectionParams context
  match subscriptionsConfig with
  | none => .ok (.passthrough context)
  | some plugin =>
    let subscriptionContext : SubscriptionContext :=
      { plugin := plugin, schemaModel := schemaModel }
    match context.bind (fun c => c.jwt) with
    | some jwt =>
      .ok (.composed context contextParams { subscriptionContext with jwt := some jwt })
    | none =>
      match resolverArgs.authorization with
      | none => .ok (.composed context contextParams subscriptionContext)
      | some auth =>
        if !(truthyStr contextParams.authorization) && auth.globalAuthentication then
          .error (.neo4jError "Unauthenticated" AUTH_FORBIDDEN_ERROR)
        else
          match auth.decodeBearerTokenWithVerify contextParams.authorization with
          | .ok jwt =>
            .ok (.composed context contextParams
              { subscriptionContext with
                  jwt := some jwt
                  jwtPayloadFieldsMap := resolverArgs.jwtPayloadFieldsMap })
          | .error e =>
            if auth.globalAuthentication then .error e
            else .ok (.composed context contextParams
              { subscriptionContext with jwt := none })

/-- A schema attribute (custom Cypher field); `payload` stands for the rest of
the attribute's data. -/
structure Attribute where
  name : String
  payload : Nat := 0
deriving DecidableEq, Repr

/-- A schema annotation; `kind` is the tag its registry key is derived from and
`payload` stands for the rest of its data. -/
structure Annotation where
  kind : String
  payload : Nat := 0
deriving DecidableEq, Repr

/-- Modelled from the spec: `annotationToKey` (module `annotation/Annotation`,
outside these sources) derives the kind key an annotation is registered under. -/
def annotationToKey (a : Annotation) : String := a.kind

/-- `Map.has` / key presence in a string-keyed JS `Map` or record, modelled as
an insertion-ordered association list. -/
def mapHas {α : Type} (m : List (String × α)) (k : String) : Bool :=
  m.any (fun p => p.1 == k)

/-- `Map.get` / record field read: the entry for key `k`, if any. -/
def mapGet {α : Type} (m : List (String × α)) (k : String) : Option α :=
  (m.find? (fun p => p.1 == k)).map (fun p => p.2)

/-- `Map.set` / record field write: update the existing entry in place, else
append a new one. -/
def mapSet {α : Type} (m : List (String × α)) (k : String) (v : α) :
    List (String × α) :=
  if mapHas m k then m.map (fun p => if p.1 == k then (k, v) else p)
  else m ++ [(k, v)]

/-- The `Operation` schema entity (src/unnamed/part_000 lines 27-75):
a name, an attribute registry keyed by attribute name, and an annotation
registry keyed by derived kind. -/
structure Operation where
  name : String
  attributes : List (String × Attribute) := []
  annotations : List (String × Annotation) := []
deriving DecidableEq, Repr

/-- `Operation.findAttribute` (part_000 lines 53-55). -/
def Operation.findAttribute (op : Operation) (name : String) : Option Attribute :=
  mapGet op.attributes name

/-- `Operation.addAttribute` (part_000 lines 57-62): rejects a duplicate
attribute name with a schema validation error, else registers the attribute. -/
def addAttribute (op : Operation) (attr : Attribute) :
    Except JsError Operation :=
  if mapHas op.attributes attr.name then
    .error (.schemaValidation
      ("Attribute " ++ attr.name ++ " already exists in " ++ op.name))
  else .ok { op with attributes := mapSet op.attributes attr.name attr }

/-- `Operation.addAnnotation` (part_000 lines 64-74): rejects a duplicate
derived kind key with a schema validation error, else registers the
annotation. -/
def addAnnotation (op : Operation) (a : Annotation) : Except JsError Operation :=
  let annotationKey := annotationToKey a
  if (mapGet op.annotations annotationKey).isSome then
    .error (.schemaValidation
      ("Annotation " ++ annotationKey ++ " already exists in " ++ op.name))
  else .ok { op with annotations := mapSet op.annotations annotationKey a }

/-- The constructor's `for (const attribute of attributes)` loop (lines 44-46):
the first failing addition aborts construction. -/
def addAttributes (op : Operation) : List Attribute → Except JsError Operation
  | [] => .ok op
  | a :: rest =>
    match addAttribute op a with
    | .error e => .error e
    | .ok op2 => addAttributes op2 rest

/-- The constructor's `for (const annotation of annotations)` loop (lines
48-50): the first failing addition aborts construction. -/
def addAnnotations (op : Operation) : List Annotation → Except JsError Operation
  | [] => .ok op
  | a :: rest =>
    match addAnnotation op a with
    | .error e => .error e
    | .ok op2 => addAnnotations op2 rest

/-- The `Operation` constructor (part_000 lines 33-51): starts from empty
registries, then adds the initial attributes, then the initial annotations, in
list order; a thrown validation error means no operation object is produced. -/
def constructOperation (name : String) (attributes : List Attribute)
    (annotations : List Annotation) : Except JsError Operation :=
  match addAttributes { name := name } attributes with
  | .error e => .error e
  | .ok op => addAnnotations op annotations

/-- The keys of an association-list registry, in insertion order. -/
def mapKeys {α : Type} (m : List (String × α)) : List String :=
  m.map (fun p => p.1)

/-- The first element of the list that repeats an earlier key (`seen` holds the
keys already encountered), i.e. the first duplicate in list order. -/
def firstDup (seen : List String) : List String → Option String
  | [] => none
  | n :: rest =>
    if seen.any (fun s => s == n) then some n else firstDup (seen ++ [n]) rest

/-- Shared fixture: an empty caller request context (all fields absent). -/
def emptyRequestContext : Neo4jGraphQLContext := {}

/-- Shared fixture: a decoder configuration whose decode attempts always fail,
with mandatory global authentication. -/
def failingAuthorization : Neo4jGraphQLAuthorization :=
  { globalAuthentication := true
    decode := fun _ => .error (.custom "bad token")
    decodeBearerTokenWithVerify := fun _ => .error (.custom "bad token") }

/-- Shared fixture: a decoder configuration whose decode attempts always
succeed with a fixed claims mapping. -/
def succeedingAuthorization : Neo4jGraphQLAuthorization :=
  { globalAuthentication := false
    decode := fun _ => .ok [("sub", "alice")]
    decodeBearerTokenWithVerify := fun _ => .ok [("sub", "alice")] }

/-- Shared fixture: an opaque schema model. -/
def sampleSchemaModel : SchemaModel := { id := 0 }

/-- C2: when the context carries no pre-resolved claims, a decoder is
configured, and the decode attempt fails, `getAuthorizationContext` returns
(rather than re-throws: the result is a plain verdict, the decoder's error `e`
does not occur in it) an unauthenticated verdict whose `jwtParam` wraps the
empty object `some []` — never the `undefined`/missing value `none` — and
leaves the caller's context unmutated. -/
theorem getAuthorizationContext_decode_failure
    (context : Neo4jGraphQLContext) (auth : Neo4jGraphQLAuthorization)
    (fieldsMap : Option (List (String × String))) (e : JsError)
    (hjwt : context.jwt = none) (hdec : auth.decode context = .error e) :
    getAuthorizationContext context (some auth) fieldsMap =
      ({ isAuthenticated := false
         jwt := none
         jwtParam := { name := "jwt", value := some [] }
         isAuthenticatedParam := { name := "isAuthenticated", value := false }
         claims := none }, context)
    ∧ (getAuthorizationContext context (some auth) fieldsMap).1.jwtParam.value ≠ none := by
  simp [getAuthorizationContext, hjwt, hdec]

/-- Witness for C2 at a concrete input: empty context, always-failing decoder. -/
theorem getAuthorizationContext_decode_failure_witness :
    getAuthorizationContext emptyRequestContext (some failingAuthorization) none =
      ({ isAuthenticated := false
         jwt := none
         jwtParam := { name := "jwt", value := some [] }
         isAuthenticatedParam := { name := "isAuthenticated", value := false }
         claims := none }, emptyRequestContext) :=
  (getAuthorizationContext_decode_failure emptyRequestContext failingAuthorization
    none (.custom "bad token") rfl rfl).1

/-- C3: when the context already carries resolved claims, the result of
`getAuthorizationContext` is the same closed value for every decoder
configuration `auth` (including a failing decoder and no decoder at all) and
every claim-to-field mapping: an authenticated verdict whose `jwt` and
`jwtParam` are built directly from the pre-resolved claims, with the context
unmutated. The right-hand side does not mention `auth`, so the decoder is
never consulted. -/
theorem getAuthorizationContext_preresolved_claims
    (context : Neo4jGraphQLContext) (c : Claims)
    (auth : Option Neo4jGraphQLAuthorization)
    (fieldsMap : Option (List (String × String)))
    (hjwt : context.jwt = some c) :
    getAuthorizationContext context auth fieldsMap =
      ({ isAuthenticated := true
         jwt := some c
         jwtParam := { name := "jwt", value := some c }
         isAuthenticatedParam := { name := "isAuthenticated", value := true }
         claims := none }, context) := by
  cases auth <;> simp [getAuthorizationContext, hjwt]

/-- Witness for C3 at a concrete input: a context carrying claims, compared
under a failing decoder. -/
theorem getAuthorizationContext_preresolved_claims_witness :
    getAuthorizationContext { jwt := some [("sub", "alice")] }
        (some failingAuthorization) none =
      ({ isAuthenticated := true
         jwt := some [("sub", "alice")]
         jwtParam := { name := "jwt", value := some [("sub", "alice")] }
         isAuthenticatedParam := { name := "isAuthenticated", value := true }
         claims := none }, { jwt := some [("sub", "alice")] }) :=
  getAuthorizationContext_preresolved_claims { jwt := some [("sub", "alice")] }
    [("sub", "alice")] (some failingAuthorization) none rfl

/-- C4: with no decoder configured and no pre-resolved claims, the verdict is
authenticated with an undefined (`none`) claims mapping and an undefined-valued
`jwtParam`, the context is unmutated, and the function returns normally (no
error value is produced). -/
theorem getAuthorizationContext_no_decoder
    (context : Neo4jGraphQLContext)
    (fieldsMap : Option (List (String × String)))
    (hjwt : context.jwt = none) :
    getAuthorizationContext context none fieldsMap =
      ({ isAuthenticated := true
         jwt := none
         jwtParam := { name := "jwt", value := none }
         isAuthenticatedParam := { name := "isAuthenticated", value := true }
         claims := none }, context) := by
  simp [getAuthorizationContext, hjwt]

/-- Witness for C4 at a concrete input: empty context, no decoder. -/
theorem getAuthorizationContext_no_decoder_witness :
    getAuthorizationContext emptyRequestContext none none =
      ({ isAuthenticated := true
         jwt := none
         jwtParam := { name := "jwt", value := none }
         isAuthenticatedParam := { name := "isAuthenticated", value := true }
         claims := none }, emptyRequestContext) :=
  getAuthorizationContext_no_decoder emptyRequestContext none rfl

/-- `getAuthorizationContext` mutates at most the `jwt` field of the caller's
context: the execution handle it carries is untouched. -/
theorem getAuthorizationContext_preserves_executionContext
    (context : Neo4jGraphQLContext) (auth : Option Neo4jGraphQLAuthorization)
    (fieldsMap : Option (List (String × String))) :
    (getAuthorizationContext context auth fieldsMap).2.executionContext =
      context.executionContext := by
  unfold getAuthorizationContext
  cases context.jwt <;> cases auth <;> simp
  case none.some a => cases a.decode context <;> simp

/-- Shared fixture: a sample database version info value. -/
def sampleDbInfo : Neo4jDatabaseInfo := { version := { major := 5, minor := 0 } }

/-- Shared fixture: a version query returning `sampleDbInfo`. -/
def sampleFetch : Executor → Neo4jDatabaseInfo := fun _ => sampleDbInfo

/-- Shared fixture: wrapper construction arguments with only a schema model. -/
def baseWrapArguments : WrapResolverArguments := { schemaModel := sampleSchemaModel }

/-- C7: (a) a request whose context carries no execution handle, under a wrapper
constructed without a default driver, is aborted with the configuration error of
lines 97-99 — `Except.error` carries no outcome, so no authorization was
resolved, no context was composed, and `next` was never invoked (the equation
holds for every decoder configuration and every version-query function);
(b) a request whose context already carries a handle produces the same run for
any two configured default drivers, and succeeds with an executor wrapping
exactly the caller's handle — no handle is drawn from the default source. -/
theorem wrapResolver_execution_handle
    (args : WrapResolverArguments) (context : Neo4jGraphQLContext)
    (cache : Option Neo4jDatabaseInfo)
    (fetchDbInfo : Executor → Neo4jDatabaseInfo) :
    (context.executionContext = none → args.driver = none →
      wrapResolver args context cache fetchDbInfo =
        .error (.error driverMissingMessage))
    ∧ (∀ h, context.executionContext = some h →
        (∀ d1 d2,
          wrapResolver { args with driver := d1 } context cache fetchDbInfo =
            wrapResolver { args with driver := d2 } context cache fetchDbInfo)
        ∧ ∃ o, wrapResolver args context cache fetchDbInfo = .ok o
            ∧ o.internal.executor.executionContext = some h) := by
  constructor
  · intro h1 h2
    simp [wrapResolver, provisionExecutionContext, h1, h2]
  · intro h hh
    constructor
    · intro d1 d2
      simp [wrapResolver, provisionExecutionContext, hh]
    · simp only [wrapResolver, provisionExecutionContext, hh, Option.isSome_some,
        if_true]
      refine ⟨_, rfl, ?_⟩
      simp only []
      split
      · simp [getAuthorizationContext_preserves_executionContext, hh]
      · simp [getAuthorizationContext_preserves_executionContext, hh]

/-- Witness for C7 at concrete inputs: a context already carrying a session
handle yields the same run whether or not a default driver is configured, and
(from part (a)) a handle-less context under a driver-less wrapper yields the
configuration error. -/
theorem wrapResolver_execution_handle_witness :
    wrapResolver { baseWrapArguments with driver := some { id := 1 } }
        { executionContext := some (.session 1) } none sampleFetch =
      wrapResolver { baseWrapArguments with driver := none }
        { executionContext := some (.session 1) } none sampleFetch
    ∧ wrapResolver baseWrapArguments emptyRequestContext none sampleFetch =
        .error (.error driverMissingMessage) :=
  ⟨((wrapResolver_execution_handle baseWrapArguments
      { executionContext := some (.session 1) } none sampleFetch).2
      (.session 1) rfl).1 (some { id := 1 }) none,
   (wrapResolver_execution_handle baseWrapArguments emptyRequestContext none
      sampleFetch).1 rfl rfl⟩

/-- C8: (a) once the module-level version cache holds a value (every cached
value carries a version) and no explicit `dbInfo` override was supplied at
construction, a request's run is the same for any two version-query functions —
the database is not re-queried — and on success the cache still holds, and the
composed context observes, the cached value; (b) when an explicit `dbInfo`
override was supplied at construction, every request's run is likewise
independent of the version-query function, and on success the cache holds, and
the composed context observes, the override. -/
theorem wrapResolver_version_cache
    (args : WrapResolverArguments) (context : Neo4jGraphQLContext)
    (cache : Option Neo4jDatabaseInfo)
    (f1 f2 : Executor → Neo4jDatabaseInfo) :
    (∀ i, cache = some i → args.dbInfo = none →
      wrapResolver args context cache f1 = wrapResolver args context cache f2
      ∧ (context.executionContext.isSome →
          ∃ o, wrapResolver args context cache f1 = .ok o
            ∧ o.cacheAfter = some i ∧ o.internal.neo4jDatabaseInfo = i))
    ∧ (∀ d, args.dbInfo = some d →
      wrapResolver args context cache f1 = wrapResolver args context cache f2
      ∧ (context.executionContext.isSome →
          ∃ o, wrapResolver args context cache f1 = .ok o
            ∧ o.cacheAfter = some d ∧ o.internal.neo4jDatabaseInfo = d)) := by
  constructor
  · intro i hc hdb
    constructor
    · cases hp : provisionExecutionContext args.driver context with
      | error e => simp [wrapResolver, hp]
      | ok ctx1 => simp [wrapResolver, hp, hc, hdb]
    · intro hex
      simp only [wrapResolver, provisionExecutionContext, hex, if_true]
      refine ⟨_, rfl, ?_, ?_⟩ <;> simp [hc, hdb]
  · intro d hdb
    constructor
    · cases hp : provisionExecutionContext args.driver context with
      | error e => simp [wrapResolver, hp]
      | ok ctx1 => simp [wrapResolver, hp, hdb]
    · intro hex
      simp only [wrapResolver, provisionExecutionContext, hex, if_true]
      refine ⟨_, rfl, ?_, ?_⟩ <;> simp [hdb]

/-- Witness for C8 at concrete inputs: with the cache already populated (first
conjunct) and with an explicit override configured (second conjunct), the run is
identical under two version queries returning different values — the database
is never re-queried. -/
theorem wrapResolver_version_cache_witness :
    (wrapResolver baseWrapArguments { executionContext := some (.session 1) }
        (some sampleDbInfo) sampleFetch =
      wrapResolver baseWrapArguments { executionContext := some (.session 1) }
        (some sampleDbInfo)
        (fun _ => { version := { major := 4, minor := 4 } }))
    ∧ (wrapResolver { baseWrapArguments with dbInfo := some sampleDbInfo }
        { executionContext := some (.session 1) } none sampleFetch =
      wrapResolver { baseWrapArguments with dbInfo := some sampleDbInfo }
        { executionContext := some (.session 1) } none
        (fun _ => { version := { major := 4, minor := 4 } })) :=
  ⟨((wrapResolver_version_cache baseWrapArguments
      { executionContext := some (.session 1) } (some sampleDbInfo) sampleFetch
      (fun _ => { version := { major := 4, minor := 4 } })).1
      sampleDbInfo rfl rfl).1,
   ((wrapResolver_version_cache
      { baseWrapArguments with dbInfo := some sampleDbInfo }
      { executionContext := some (.session 1) } none sampleFetch
      (fun _ => { version := { major := 4, minor := 4 } })).2
      sampleDbInfo rfl).1⟩

/-- Looking a key up across concatenated field assignments: the later block
wins when it assigns the key. -/
theorem lookupLast_append (a b : CtxObj) (k : String) :
    lookupLast (a ++ b) k =
      match lookupLast b k with
      | some v => some v
      | none => lookupLast a k := by
  induction a with
  | nil =>
    simp only [List.nil_append, lookupLast]
    cases lookupLast b k <;> simp
  | cons p rest ih =>
    cases p with
    | mk k1 v =>
      simp only [List.cons_append, lookupLast, List.append_eq]
      rw [ih]
      cases lookupLast b k <;> cases lookupLast rest k <;> simp

/-- A successful `wrapResolver` run composes the object handed to `next` as
line 137 writes it: the caller's (mutated) context spread first, then the
internal-context literal — which itself ends by spreading the caller's context
again (line 134). -/
theorem wrapResolver_ok_composed
    (args : WrapResolverArguments) (context : Neo4jGraphQLContext)
    (cache : Option Neo4jDatabaseInfo)
    (fetchDbInfo : Executor → Neo4jDatabaseInfo) (o : WrapResolverOutcome)
    (hok : wrapResolver args context cache fetchDbInfo = .ok o) :
    o.composed = spreadObj o.ctxAfter.toObj
      (spreadObj (internalObj o.internal) o.ctxAfter.toObj) := by
  cases hp : provisionExecutionContext args.driver context with
  | error e => simp [wrapResolver, hp] at hok
  | ok ctx1 =>
    simp only [wrapResolver, hp] at hok
    rw [Except.ok.injEq] at hok
    subst hok
    rfl

/-- C5: for every field name present on the caller's context object as it
stands at merge time (after the wrapper's in-place mutations), the composed
object handed to `next` carries the caller-supplied value for that field, not
the internally derived one — caller-supplied fields always win the merge. -/
theorem wrapResolver_caller_precedence
    (args : WrapResolverArguments) (context : Neo4jGraphQLContext)
    (cache : Option Neo4jDatabaseInfo)
    (fetchDbInfo : Executor → Neo4jDatabaseInfo) (o : WrapResolverOutcome)
    (k : String) (v : CtxValue)
    (hok : wrapResolver args context cache fetchDbInfo = .ok o)
    (hv : lookupLast o.ctxAfter.toObj k = some v) :
    lookupLast o.composed k = some v := by
  rw [wrapResolver_ok_composed args context cache fetchDbInfo o hok]
  unfold spreadObj
  rw [lookupLast_append, lookupLast_append, hv]

/-- Shared fixture: a default outcome used to project a known-successful run. -/
def fallbackOutcome : WrapResolverOutcome :=
  { ctxAfter := {}
    internal :=
      { nodes := []
        relationships := []
        schemaModel := sampleSchemaModel
        features := {}
        subscriptionsEnabled := false
        executor := {}
        neo4jDatabaseInfo := sampleDbInfo
        authorization :=
          { isAuthenticated := true
            jwtParam := { name := "jwt", value := none }
            isAuthenticatedParam := { name := "isAuthenticated", value := true } } }
    composed := []
    cacheAfter := none }

/-- Shared fixture: a request context that carries a session handle and a
caller-supplied `executor` field shadowing the wrapper's own. -/
def overridingContext : Neo4jGraphQLContext :=
  { executionContext := some (.session 1)
    extra := [("executor", CtxValue.natV 7)] }

/-- Witness for C5 at a concrete input: the caller supplies an `executor` field
of its own; the object handed to `next` carries the caller's value. -/
theorem wrapResolver_caller_precedence_witness :
    lookupLast ((wrapResolver baseWrapArguments overridingContext none
        sampleFetch).toOption.getD fallbackOutcome).composed "executor" =
      some (CtxValue.natV 7) :=
  wrapResolver_caller_precedence baseWrapArguments overridingContext none
    sampleFetch
    ((wrapResolver baseWrapArguments overridingContext none
        sampleFetch).toOption.getD fallbackOutcome)
    "executor" (CtxValue.natV 7) (by rfl) (by rfl)

/-- Shared fixture: wrapper arguments with a failing decoder, mandatory global
authentication, and the subscriptions feature NOT set. -/
def disabledSubArguments : WrapResolverArguments :=
  { schemaModel := sampleSchemaModel
    authorization := some failingAuthorization }

/-- Shared fixture: as `disabledSubArguments` but with the subscriptions
feature enabled. -/
def enabledSubArguments : WrapResolverArguments :=
  { schemaModel := sampleSchemaModel
    features := { subscriptions := some { id := 1 } }
    authorization := some failingAuthorization }

/-- Shared fixture: a connection context with connection parameters present but
carrying no authorization token and no claims. -/
def tokenlessConnectionContext : Option SubscriptionConnectionContext :=
  some { connectionParams := some { authorization := none } }

/-- Shared fixture: a connection context whose connection parameters carry an
authorization token, and no claims. -/
def paramCarryingContext : Option SubscriptionConnectionContext :=
  some { connectionParams := some { authorization := some "tok" } }

/-- Counterexample to C1 as stated: with a decoder configured,
`globalAuthentication` enabled, no claims on the connection context and no
authorization token in the connection parameters — but the subscriptions
feature not set — `wrapSubscription` raises no error at all and invokes `next`
(line 150 returns before any authentication check), contradicting the claim
that every such connection is rejected with an authentication-required error
before the next step. -/
theorem wrapSubscription_globalAuth_counterexample :
    wrapSubscription disabledSubArguments tokenlessConnectionContext =
      .ok (.passthrough tokenlessConnectionContext)
    ∧ ¬ (wrapSubscription disabledSubArguments tokenlessConnectionContext =
          .error (.neo4jError "Unauthenticated" AUTH_FORBIDDEN_ERROR)) := by
  have h1 : wrapSubscription disabledSubArguments tokenlessConnectionContext =
      .ok (.passthrough tokenlessConnectionContext) := rfl
  exact ⟨h1, fun h => Except.noConfusion (h1.symm.trans h)⟩

/-- C1 as amended: additionally assuming the subscriptions feature is enabled.
Then a configured decoder with `globalAuthentication`, a connection context
carrying no claims, and connection parameters carrying no authorization token
make `wrapSubscription` throw the authentication-required `Neo4jError`
(`Except.error`: no `SubNextArg` exists, so `next` is never invoked). -/
theorem wrapSubscription_globalAuth_requires_token
    (args : WrapResolverArguments)
    (context : Option SubscriptionConnectionContext)
    (eng : SubscriptionsEngine) (auth : Neo4jGraphQLAuthorization)
    (hsub : args.features.subscriptions = some eng)
    (hauth : args.authorization = some auth)
    (hglobal : auth.globalAuthentication = true)
    (hjwt : context.bind (fun c => c.jwt) = none)
    (htok : (subscriptionConnectionParams context).authorization = none) :
    wrapSubscription args context =
      .error (.neo4jError "Unauthenticated" AUTH_FORBIDDEN_ERROR) := by
  simp [wrapSubscription, hsub, hjwt, hauth, truthyStr, htok, hglobal]

/-- Witness for the amended C1 at a concrete input: enabled subscriptions,
failing decoder with global authentication, token-less connection. -/
theorem wrapSubscription_globalAuth_requires_token_witness :
    wrapSubscription enabledSubArguments tokenlessConnectionContext =
      .error (.neo4jError "Unauthenticated" AUTH_FORBIDDEN_ERROR) :=
  wrapSubscription_globalAuth_requires_token enabledSubArguments
    tokenlessConnectionContext { id := 1 } failingAuthorization
    rfl rfl rfl rfl rfl

/-- C6: when the connection context already carries a jwt claims mapping,
`wrapSubscription` (a) produces the same run for any two decoder
configurations — the decoder is never consulted, even one with
`globalAuthentication` and even with no token in the connection parameters —
(b) hands `next` an object on which those same claims are the visible `jwt`,
and (c) never throws. -/
theorem wrapSubscription_reuses_context_claims
    (args : WrapResolverArguments) (ctx : SubscriptionConnectionContext)
    (c : Claims) (hjwt : ctx.jwt = some c) :
    (∀ a1 a2, wrapSubscription { args with authorization := a1 } (some ctx) =
        wrapSubscription { args with authorization := a2 } (some ctx))
    ∧ (∀ narg, wrapSubscription args (some ctx) = .ok narg →
        narg.visibleJwt = some c)
    ∧ (∀ e, wrapSubscription args (some ctx) ≠ .error e) := by
  cases hs : args.features.subscriptions with
  | none =>
    refine ⟨fun a1 a2 => by simp [wrapSubscription, hs], ?_, ?_⟩
    · intro narg h
      simp only [wrapSubscription, hs, Except.ok.injEq] at h
      subst h
      simp [SubNextArg.visibleJwt, hjwt]
    · intro e h
      simp [wrapSubscription, hs] at h
  | some eng =>
    refine ⟨fun a1 a2 => by simp [wrapSubscription, hs, hjwt], ?_, ?_⟩
    · intro narg h
      simp only [wrapSubscription, hs, Option.some_bind, hjwt,
        Except.ok.injEq] at h
      subst h
      simp [SubNextArg.visibleJwt]
    · intro e h
      simp [wrapSubscription, hs, hjwt] at h

/-- Shared fixture: a connection context carrying pre-resolved claims but no
token, used against a failing global-authentication decoder. -/
def claimCarryingContext : SubscriptionConnectionContext :=
  { connectionParams := some { authorization := none }
    jwt := some [("sub", "alice")] }

/-- Witness for C6 at a concrete input: a claims-carrying connection under an
enabled-subscriptions wrapper; swapping the failing global-auth decoder for no
decoder at all does not change the run, the visible claims are the context's,
and the authentication-required error is not thrown. -/
theorem wrapSubscription_reuses_context_claims_witness :
    (wrapSubscription
        { enabledSubArguments with authorization := some failingAuthorization }
        (some claimCarryingContext) =
      wrapSubscription { enabledSubArguments with authorization := none }
        (some claimCarryingContext))
    ∧ ((wrapSubscription enabledSubArguments
          (some claimCarryingContext)).toOption.getD
            (.passthrough none)).visibleJwt = some [("sub", "alice")]
    ∧ wrapSubscription enabledSubArguments (some claimCarryingContext) ≠
        .error (.neo4jError "Unauthenticated" AUTH_FORBIDDEN_ERROR) :=
  ⟨(wrapSubscription_reuses_context_claims enabledSubArguments
      claimCarryingContext [("sub", "alice")] rfl).1
      (some failingAuthorization) none,
   (wrapSubscription_reuses_context_claims enabledSubArguments
      claimCarryingContext [("sub", "alice")] rfl).2.1
      ((wrapSubscription enabledSubArguments
          (some claimCarryingContext)).toOption.getD (.passthrough none))
      (by rfl),
   (wrapSubscription_reuses_context_claims enabledSubArguments
      claimCarryingContext [("sub", "alice")] rfl).2.2
      (.neo4jError "Unauthenticated" AUTH_FORBIDDEN_ERROR)⟩

/-- Counterexample to C9 as stated: with subscriptions disabled and the
connection parameters carrying a token, `wrapSubscription` hands `next` the
original context object untouched (line 150) — the connection parameters are
NOT merged in, so the top-level `authorization` field the claimed merge would
expose (`some "tok"`, third conjunct) is absent on the object `next` receives
(second conjunct). -/
theorem wrapSubscription_disabled_counterexample :
    wrapSubscription disabledSubArguments paramCarryingContext =
      .ok (.passthrough paramCarryingContext)
    ∧ (SubNextArg.passthrough paramCarryingContext).topAuthorization = none
    ∧ (subscriptionConnectionParams paramCarryingContext).authorization =
        some "tok" := by
  exact ⟨rfl, rfl, rfl⟩

/-- C9 as amended: when the subscriptions feature is disabled,
`wrapSubscription` invokes `next` with the connection context passed through
entirely unchanged — the connection parameters are not merged — no error is
thrown, and no authorization resolution is attempted: the run is the same for
every decoder configuration. -/
theorem wrapSubscription_disabled_passthrough
    (args : WrapResolverArguments)
    (context : Option SubscriptionConnectionContext)
    (hsub : args.features.subscriptions = none) :
    wrapSubscription args context = .ok (.passthrough context)
    ∧ (∀ a1 a2, wrapSubscription { args with authorization := a1 } context =
        wrapSubscription { args with authorization := a2 } context) := by
  exact ⟨by simp [wrapSubscription, hsub], fun a1 a2 => by
    simp [wrapSubscription, hsub]⟩

/-- Witness for the amended C9 at a concrete input: disabled subscriptions,
context absent; the run passes the context through and is unchanged when the
decoder configuration is swapped. -/
theorem wrapSubscription_disabled_passthrough_witness :
    wrapSubscription disabledSubArguments none = .ok (.passthrough none)
    ∧ wrapSubscription { disabledSubArguments with authorization := none }
        none =
      wrapSubscription
        { disabledSubArguments with
            authorization := some succeedingAuthorization } none :=
  ⟨(wrapSubscription_disabled_passthrough disabledSubArguments none rfl).1,
   (wrapSubscription_disabled_passthrough disabledSubArguments none rfl).2
      none (some succeedingAuthorization)⟩

/-- The duplicate test of `firstDup` over a registry's key list coincides with
the registry's `mapHas` test. -/
theorem mapKeys_any {α : Type} (m : List (String × α)) (k : String) :
    (mapKeys m).any (fun s => s == k) = mapHas m k := by
  induction m with
  | nil => rfl
  | cons p rest ih =>
    simp only [mapKeys, List.map_cons, List.any_cons, mapHas] at *
    rw [ih]

/-- Writing a fresh key appends the new entry. -/
theorem mapSet_of_not_has {α : Type} (m : List (String × α)) (k : String)
    (v : α) (h : mapHas m k = false) : mapSet m k v = m ++ [(k, v)] := by
  simp [mapSet, h]

/-- A registry read succeeds exactly when the key is present. -/
theorem mapGet_isSome {α : Type} (m : List (String × α)) (k : String) :
    (mapGet m k).isSome = mapHas m k := by
  induction m with
  | nil => simp [mapGet, mapHas]
  | cons p rest ih =>
    by_cases hk : p.1 == k
    · simp [mapGet, mapHas, List.find?, hk]
    · simp only [mapGet, mapHas, List.find?, hk, List.any_cons] at *
      simpa [mapGet, mapHas] using ih

/-- If the attribute loop meets a first duplicate (relative to the keys already
registered), it fails with the validation error naming that duplicate. -/
theorem addAttributes_firstDup (l : List Attribute) :
    ∀ (op : Operation) (d : String),
      firstDup (mapKeys op.attributes) (l.map (fun a => a.name)) = some d →
      addAttributes op l =
        .error (.schemaValidation
          ("Attribute " ++ d ++ " already exists in " ++ op.name)) := by
  induction l with
  | nil => intro op d h; simp [firstDup] at h
  | cons a rest ih =>
    intro op d h
    simp only [List.map_cons, firstDup, mapKeys_any] at h
    cases hb : mapHas op.attributes a.name with
    | true =>
      rw [hb] at h
      simp at h
      subst h
      simp [addAttributes, addAttribute, hb]
    | false =>
      rw [hb] at h
      simp at h
      have hk : mapKeys (mapSet op.attributes a.name a) =
          mapKeys op.attributes ++ [a.name] := by
        rw [mapSet_of_not_has op.attributes a.name a hb]
        simp [mapKeys]
      have h2 := ih { op with attributes := mapSet op.attributes a.name a } d
        (by simpa [hk] using h)
      simpa [addAttributes, addAttribute, hb] using h2

/-- If the attribute loop meets no duplicate, it succeeds and appends each
attribute keyed by its name, in list order. -/
theorem addAttributes_ok (l : List Attribute) :
    ∀ (op : Operation),
      firstDup (mapKeys op.attributes) (l.map (fun a => a.name)) = none →
      addAttributes op l =
        .ok { op with
              attributes := op.attributes ++ l.map (fun a => (a.name, a)) } := by
  induction l with
  | nil => intro op _; simp [addAttributes]
  | cons a rest ih =>
    intro op h
    simp only [List.map_cons, firstDup, mapKeys_any] at h
    cases hb : mapHas op.attributes a.name with
    | true => rw [hb] at h; simp at h
    | false =>
      rw [hb] at h
      simp at h
      have hk : mapKeys (mapSet op.attributes a.name a) =
          mapKeys op.attributes ++ [a.name] := by
        rw [mapSet_of_not_has op.attributes a.name a hb]
        simp [mapKeys]
      have h2 := ih { op with attributes := mapSet op.attributes a.name a }
        (by simpa [hk] using h)
      simp only [addAttributes, addAttribute, hb, Bool.false_eq_true,
        if_false, h2]
      rw [mapSet_of_not_has op.attributes a.name a hb]
      simp

/-- If the annotation loop meets a first duplicate key (relative to the keys
already registered), it fails with the validation error naming that key. -/
theorem addAnnotations_firstDup (l : List Annotation) :
    ∀ (op : Operation) (d : String),
      firstDup (mapKeys op.annotations) (l.map annotationToKey) = some d →
      addAnnotations op l =
        .error (.schemaValidation
          ("Annotation " ++ d ++ " already exists in " ++ op.name)) := by
  induction l with
  | nil => intro op d h; simp [firstDup] at h
  | cons a rest ih =>
    intro op d h
    simp only [List.map_cons, firstDup, mapKeys_any] at h
    cases hb : mapHas op.annotations (annotationToKey a) with
    | true =>
      rw [hb] at h
      simp at h
      subst h
      simp [addAnnotations, addAnnotation, mapGet_isSome, hb]
    | false =>
      rw [hb] at h
      simp at h
      have hk : mapKeys (mapSet op.annotations (annotationToKey a) a) =
          mapKeys op.annotations ++ [annotationToKey a] := by
        rw [mapSet_of_not_has op.annotations (annotationToKey a) a hb]
        simp [mapKeys]
      have h2 := ih
        { op with annotations := mapSet op.annotations (annotationToKey a) a }
        d (by simpa [hk] using h)
      simpa [addAnnotations, addAnnotation, mapGet_isSome, hb] using h2

/-- If the annotation loop meets no duplicate key, it succeeds and appends each
annotation keyed by its derived kind, in list order. -/
theorem addAnnotations_ok (l : List Annotation) :
    ∀ (op : Operation),
      firstDup (mapKeys op.annotations) (l.map annotationToKey) = none →
      addAnnotations op l =
        .ok { op with
              annotations :=
                op.annotations ++ l.map (fun a => (annotationToKey a, a)) } := by
  induction l with
  | nil => intro op _; simp [addAnnotations]
  | cons a rest ih =>
    intro op h
    simp only [List.map_cons, firstDup, mapKeys_any] at h
    cases hb : mapHas op.annotations (annotationToKey a) with
    | true => rw [hb] at h; simp at h
    | false =>
      rw [hb] at h
      simp at h
      have hk : mapKeys (mapSet op.annotations (annotationToKey a) a) =
          mapKeys op.annotations ++ [annotationToKey a] := by
        rw [mapSet_of_not_has op.annotations (annotationToKey a) a hb]
        simp [mapKeys]
      have h2 := ih
        { op with annotations := mapSet op.annotations (annotationToKey a) a }
        (by simpa [hk] using h)
      simp only [addAnnotations, addAnnotation, mapGet_isSome, hb,
        Bool.false_eq_true, if_false, h2]
      rw [mapSet_of_not_has op.annotations (annotationToKey a) a hb]
      simp

/-- If scanning finds no duplicate, none of the scanned names was already
seen. -/
theorem firstDup_none_not_seen (l : List String) :
    ∀ seen, firstDup seen l = none →
      ∀ n ∈ l, seen.any (fun s => s == n) = false := by
  induction l with
  | nil => intro seen _ n hn; simp at hn
  | cons m rest ih =>
    intro seen h n hn
    simp only [firstDup] at h
    cases hm : seen.any (fun s => s == m) with
    | true => rw [hm] at h; simp at h
    | false =>
      rw [hm] at h
      simp only [if_false, Bool.false_eq_true] at h
      rcases List.mem_cons.mp hn with rfl | hn2
      · exact hm
      · have := ih (seen ++ [m]) h n hn2
        simp only [List.any_append] at this
        exact (Bool.or_eq_false_iff.mp this).1

/-- In a registry built by keying a duplicate-free attribute list by name, each
listed attribute is found under its name. -/
theorem mapGet_keyed_attributes (l : List Attribute) :
    ∀ seen, firstDup seen (l.map (fun a => a.name)) = none →
      ∀ a ∈ l, mapGet (l.map (fun b => (b.name, b))) a.name = some a := by
  induction l with
  | nil => intro seen _ a ha; simp at ha
  | cons b rest ih =>
    intro seen h a ha
    simp only [List.map_cons, firstDup] at h
    cases hm : seen.any (fun s => s == b.name) with
    | true => rw [hm] at h; simp at h
    | false =>
      rw [hm] at h
      simp only [if_false, Bool.false_eq_true] at h
      rcases List.mem_cons.mp ha with rfl | ha2
      · simp [mapGet, List.find?]
      · have hne : (b.name == a.name) = false := by
          have := firstDup_none_not_seen (rest.map (fun a => a.name))
            (seen ++ [b.name]) h a.name
            (List.mem_map.mpr ⟨a, ha2, rfl⟩)
          simp only [List.any_append] at this
          have h2 := (Bool.or_eq_false_iff.mp this).2
          simpa using h2
        have h3 := ih (seen ++ [b.name]) h a ha2
        simpa [mapGet, List.find?, hne] using h3

/-- C10: for the `Operation` constructor —
(a) if the initial attribute list repeats a name, construction fails with the
schema validation error naming the first duplicate met in list order (no
operation object is produced, so nothing is silently overwritten);
(b) if the attribute names are unique but the initial annotation list repeats a
derived kind key, construction fails with the schema validation error naming
the first duplicate key;
(c) if both lists are duplicate-free, construction succeeds with both
registries populated in list order, and `findAttribute` returns each added
attribute under its name. -/
theorem constructOperation_uniqueness (name : String)
    (attrs : List Attribute) (anns : List Annotation) :
    (∀ d, firstDup [] (attrs.map (fun a => a.name)) = some d →
      constructOperation name attrs anns =
        .error (.schemaValidation
          ("Attribute " ++ d ++ " already exists in " ++ name)))
    ∧ (firstDup [] (attrs.map (fun a => a.name)) = none →
       ∀ d, firstDup [] (anns.map annotationToKey) = some d →
        constructOperation name attrs anns =
          .error (.schemaValidation
            ("Annotation " ++ d ++ " already exists in " ++ name)))
    ∧ (firstDup [] (attrs.map (fun a => a.name)) = none →
       firstDup [] (anns.map annotationToKey) = none →
        constructOperation name attrs anns =
          .ok { name := name
                attributes := attrs.map (fun a => (a.name, a))
                annotations := anns.map (fun a => (annotationToKey a, a)) }
        ∧ ∀ a ∈ attrs,
            Operation.findAttribute
              { name := name
                attributes := attrs.map (fun a => (a.name, a))
                annotations := anns.map (fun a => (annotationToKey a, a)) }
              a.name = some a) := by
  refine ⟨?_, ?_, ?_⟩
  · intro d h
    have h1 := addAttributes_firstDup attrs { name := name } d
      (by simpa [mapKeys] using h)
    simp [constructOperation, h1]
  · intro ha d h
    have h1 := addAttributes_ok attrs { name := name }
      (by simpa [mapKeys] using ha)
    have h2 := addAnnotations_firstDup anns
      { name := name, attributes := [] ++ attrs.map (fun a => (a.name, a)) } d
      (by simpa [mapKeys] using h)
    simp only [constructOperation, h1]
    simpa using h2
  · intro ha hb
    have h1 := addAttributes_ok attrs { name := name }
      (by simpa [mapKeys] using ha)
    have h2 := addAnnotations_ok anns
      { name := name, attributes := [] ++ attrs.map (fun a => (a.name, a)) }
      (by simpa [mapKeys] using hb)
    constructor
    · simp only [constructOperation, h1]
      simpa using h2
    · intro a ha2
      have := mapGet_keyed_attributes attrs [] ha a ha2
      simpa [Operation.findAttribute] using this

/-- Witness for C10 at concrete inputs: a repeated attribute name fails naming
the duplicate; a repeated annotation kind fails naming the key; a duplicate-free
list constructs an operation on which both attributes are retrievable. -/
theorem constructOperation_uniqueness_witness :
    constructOperation "Query"
        [{ name := "a" }, { name := "b" }, { name := "a", payload := 2 }] [] =
      .error (.schemaValidation
        ("Attribute " ++ "a" ++ " already exists in " ++ "Query"))
    ∧ constructOperation "Query" [{ name := "a" }]
        [{ kind := "cypher" }, { kind := "cypher", payload := 1 }] =
      .error (.schemaValidation
        ("Annotation " ++ "cypher" ++ " already exists in " ++ "Query"))
    ∧ Operation.findAttribute
        { name := "Query"
          attributes :=
            [{ name := "a" }, { name := "b", payload := 1 }].map
              (fun a => (a.name, a))
          annotations := [] }
        "b" = some { name := "b", payload := 1 } :=
  ⟨(constructOperation_uniqueness "Query"
      [{ name := "a" }, { name := "b" }, { name := "a", payload := 2 }] []).1
      "a" (by rfl),
   (constructOperation_uniqueness "Query" [{ name := "a" }]
      [{ kind := "cypher" }, { kind := "cypher", payload := 1 }]).2.1
      (by rfl) "cypher" (by rfl),
   ((constructOperation_uniqueness "Query"
      [{ name := "a" }, { name := "b", payload := 1 }] []).2.2
      (by rfl) (by rfl)).2 { name := "b", payload := 1 } (by simp)⟩
